import Mathlib

/-!
Shallow embedding of the chill_z repository's verifiable logic, and proofs of
the frozen claims about it.

Embedded sources:
* `src/src/components/ui/verified-badge.tsx` — the `ImageLoadManager`
  bounded-concurrency queue, `SafeImage`'s `loadImage` retry/backoff logic and
  `getFallbackSources` fallback-chain selection.
* `src/unnamed/part_000` — the SQL function `award_post_points` and its
  `AFTER INSERT` trigger `award_points_on_post` on `public.posts`.
* `src/supabase/migrations/20251001011416_….sql` — the `posts` table and the
  `update_posts_updated_at` trigger.
* `src/supabase/migrations/20251002001145_….sql` — the `stories` table, its
  column defaults and its row-level-security policies.
* `src/src/components/feed/FeedCard.tsx` — the client-side handlers
  `handleLike`, `handleAddComment`, `handleDeleteComment`, `handleDeletePost`,
  `handleTogglePin`.
-/

namespace ChillZ

/-! ## ImageLoadManager (verified-badge.tsx, lines 45-74)

The manager keeps a count `activeLoads`, a constant `maxConcurrent = 4` and a
FIFO `queue` of deferred callbacks.  Callbacks are modelled by `Nat`
identifiers; "running" a callback is modelled by emitting its identifier in
the dispatch list returned by each operation. -/

/-- Constant `maxConcurrent = 4` of `ImageLoadManager`. -/
def maxConcurrent : Int := 4

/-- The mutable fields of `ImageLoadManager`: `activeLoads` (a JS number,
modelled as `Int`) and `queue` (the array of queued callbacks, FIFO). -/
structure LoadManagerState where
  activeLoads : Int
  queue : List Nat
deriving Repr, DecidableEq

/-- The initial state of the module-level `loadManager` instance. -/
def initLoadManager : LoadManagerState := { activeLoads := 0, queue := [] }

/-- Method `canLoad()`: returns `activeLoads < maxConcurrent`. -/
def canLoad (s : LoadManagerState) : Bool := s.activeLoads < maxConcurrent

/-- Method `startLoad(callback)`: if `canLoad()` then increment `activeLoads` and run
the callback immediately; otherwise push the callback on the queue.  Returns
the new state together with the list of callbacks dispatched by this call. -/
def startLoad (s : LoadManagerState) (cb : Nat) : LoadManagerState × List Nat :=
  if canLoad s then
    ({ s with activeLoads := s.activeLoads + 1 }, [cb])
  else
    ({ s with queue := s.queue ++ [cb] }, [])

/-- Method `finishLoad()`: decrement `activeLoads`; if the queue is non-empty, shift
its first element, re-increment `activeLoads` and dispatch that callback
(after a random stagger, irrelevant to state).  Returns the new state and the
dispatched callbacks. -/
def finishLoad (s : LoadManagerState) : LoadManagerState × List Nat :=
  let s1 : LoadManagerState := { s with activeLoads := s.activeLoads - 1 }
  match s1.queue with
  | [] => (s1, [])
  | next :: rest =>
      ({ activeLoads := s1.activeLoads + 1, queue := rest }, [next])

/-- One operation on the shared manager: a `startLoad` call carrying its
callback, or a `finishLoad` call. -/
inductive LoadOp where
  | start (cb : Nat)
  | finish
deriving Repr, DecidableEq

/-- Run a sequence of operations from a state. -/
def runOps (s : LoadManagerState) : List LoadOp → LoadManagerState
  | [] => s
  | LoadOp.start cb :: rest => runOps (startLoad s cb).1 rest
  | LoadOp.finish :: rest => runOps (finishLoad s).1 rest

/-- A sequence is valid from `s` when every `finishLoad` in it completes a
previously dispatched load, i.e. arrives while at least one load is active. -/
def validOps (s : LoadManagerState) : List LoadOp → Bool
  | [] => true
  | LoadOp.start cb :: rest => validOps (startLoad s cb).1 rest
  | LoadOp.finish :: rest => (0 < s.activeLoads) && validOps (finishLoad s).1 rest

/-- Callbacks enqueued (deferred rather than run at once) along a run, in
order of arrival. -/
def enqueuedOps (s : LoadManagerState) : List LoadOp → List Nat
  | [] => []
  | LoadOp.start cb :: rest =>
      (if canLoad s then [] else [cb]) ++ enqueuedOps (startLoad s cb).1 rest
  | LoadOp.finish :: rest => enqueuedOps (finishLoad s).1 rest

/-- Callbacks dispatched from the queue by `finishLoad` along a run, in
dispatch order. -/
def queueDispatched (s : LoadManagerState) : List LoadOp → List Nat
  | [] => []
  | LoadOp.start cb :: rest => queueDispatched (startLoad s cb).1 rest
  | LoadOp.finish :: rest => (finishLoad s).2 ++ queueDispatched (finishLoad s).1 rest

/-! ## SafeImage retry logic (verified-badge.tsx, lines 195-256)

`img.onerror` at attempt `n` either schedules a retry of the same source after
`Math.pow(2, attempt) * 1000 + Math.random() * 1000` milliseconds (when
`attempt < maxRetries`) or invokes the error callback and rejects.  The
`Math.random()` draw is modelled by an explicit jitter parameter. -/

/-- Outcome of the `img.onerror` handler at a given attempt. -/
inductive ErrorStep where
  | retryAfter (delay : ℚ)
  | fail
deriving Repr, DecidableEq

/-- The delay expression `Math.pow(2, attempt) * 1000 + jitter` where
`jitter = Math.random() * 1000`. -/
def retryDelay (attempt : Nat) (jitter : ℚ) : ℚ :=
  2 ^ attempt * 1000 + jitter

/-- The decision taken by `img.onerror` in `loadImage` at attempt `attempt`
with retry bound `maxRetries` and jitter draw `jitter`:
`if (attempt < maxRetries) { setTimeout(retry, delay) } else { onError }`. -/
def onImgError (maxRetries attempt : Nat) (jitter : ℚ) : ErrorStep :=
  if attempt < maxRetries then ErrorStep.retryAfter (retryDelay attempt jitter)
  else ErrorStep.fail

/-- The default of the `maxRetries` prop of `SafeImage`. -/
def defaultMaxRetries : Nat := 3

/-- Total number of load attempts made on one source when every attempt
fails, starting from attempt number `attempt`: each failing attempt with
`attempt < maxRetries` is followed by a retry at `attempt + 1`, and the
attempt at `maxRetries` is the last. -/
def attemptsFrom (maxRetries attempt : Nat) : Nat :=
  if attempt < maxRetries then attemptsFrom maxRetries (attempt + 1) + 1 else 1
termination_by maxRetries - attempt

/-! ## Helper lemmas for the load manager -/

/-- Operations `startLoad` and `finishLoad` preserve the bound `activeLoads ≤ 4`. -/
theorem runOps_active_le (ops : List LoadOp) :
    ∀ s : LoadManagerState, s.activeLoads ≤ maxConcurrent →
      (runOps s ops).activeLoads ≤ maxConcurrent := by
  induction ops with
  | nil => intro s hs; simpa [runOps] using hs
  | cons op rest ih =>
    intro s hs
    cases op with
    | start cb =>
      simp only [runOps]
      apply ih
      by_cases h : canLoad s
      · simp only [startLoad, h, if_pos]
        simp only [canLoad, maxConcurrent, decide_eq_true_eq] at h
        simp only [maxConcurrent] at hs ⊢
        omega
      · simp [startLoad, h, hs]
    | finish =>
      simp only [runOps]
      apply ih
      cases hq : s.queue with
      | nil =>
        simp only [finishLoad, hq]
        simp only [maxConcurrent] at hs ⊢
        omega
      | cons c cs =>
        simp only [finishLoad, hq]
        simp only [maxConcurrent] at hs ⊢
        omega

/-- Queue accounting: the initial queue contents followed by everything
enqueued along a run equals everything dispatched from the queue followed by
the final queue contents. -/
theorem queue_accounting (ops : List LoadOp) :
    ∀ s : LoadManagerState,
      s.queue ++ enqueuedOps s ops
        = queueDispatched s ops ++ (runOps s ops).queue := by
  induction ops with
  | nil => intro s; simp [enqueuedOps, queueDispatched, runOps]
  | cons op rest ih =>
    intro s
    cases op with
    | start cb =>
      by_cases h : canLoad s
      · simpa [enqueuedOps, queueDispatched, runOps, startLoad, h] using
          ih (startLoad s cb).1
      · have := ih (startLoad s cb).1
        simp only [startLoad, h, if_neg, Bool.false_eq_true, not_false_iff,
          ite_false] at this ⊢
        simp [enqueuedOps, queueDispatched, runOps, startLoad, h, ← this]
    | finish =>
      cases hq : s.queue with
      | nil =>
        have := ih (finishLoad s).1
        simp only [finishLoad, hq] at this ⊢
        simpa [enqueuedOps, queueDispatched, runOps, finishLoad, hq] using this
      | cons c cs =>
        have := ih (finishLoad s).1
        simp only [finishLoad, hq, Int.sub_add_cancel] at this ⊢
        simp [enqueuedOps, queueDispatched, runOps, finishLoad, hq,
          Int.sub_add_cancel, ← this]

/-- Claim C1: the image load manager bounds concurrency at 4.  For every
valid operation sequence (each `finishLoad` completes a previously dispatched
load), `activeLoads` never exceeds `maxConcurrent = 4`; and a `startLoad`
arriving while 4 loads are active appends its callback to the queue and
dispatches nothing. -/
theorem loadManager_concurrency_bounded :
    (∀ ops : List LoadOp, validOps initLoadManager ops = true →
      (runOps initLoadManager ops).activeLoads ≤ maxConcurrent) ∧
    (∀ (s : LoadManagerState) (cb : Nat), s.activeLoads = maxConcurrent →
      startLoad s cb = ({ s with queue := s.queue ++ [cb] }, [])) := by
  constructor
  · intro ops _
    exact runOps_active_le ops initLoadManager (by simp [initLoadManager, maxConcurrent])
  · intro s cb h
    have hc : canLoad s = false := by
      simp [canLoad, h]
    simp [startLoad, hc]

/-- Claim C1 witness: a concrete valid sequence of six starts and one finish
keeps `activeLoads` within the bound, and a start in a 4-active state only
enqueues. -/
theorem loadManager_concurrency_bounded_witness :
    (validOps initLoadManager
        [LoadOp.start 1, LoadOp.start 2, LoadOp.start 3, LoadOp.start 4,
         LoadOp.start 5, LoadOp.finish, LoadOp.start 6] = true ∧
      (runOps initLoadManager
        [LoadOp.start 1, LoadOp.start 2, LoadOp.start 3, LoadOp.start 4,
         LoadOp.start 5, LoadOp.finish, LoadOp.start 6]).activeLoads
          ≤ maxConcurrent) ∧
    ({ activeLoads := 4, queue := [9] } : LoadManagerState).activeLoads
        = maxConcurrent ∧
      startLoad { activeLoads := 4, queue := [9] } 7
        = ({ activeLoads := 4, queue := [9, 7] }, []) :=
  ⟨⟨by decide,
    loadManager_concurrency_bounded.1
      [LoadOp.start 1, LoadOp.start 2, LoadOp.start 3, LoadOp.start 4,
       LoadOp.start 5, LoadOp.finish, LoadOp.start 6] (by decide)⟩,
   by decide,
   loadManager_concurrency_bounded.2 { activeLoads := 4, queue := [9] } 7
     (by decide)⟩

/-- Claim C7: the deferred-load queue is FIFO and `finishLoad` dispatches at
most one load per completion.  A `finishLoad` in a state with non-empty queue
dispatches exactly the front callback and removes it; globally, the callbacks
dispatched from the queue along any run from the initial state form a prefix
of the callbacks in enqueue order, so no later-enqueued callback is ever
dispatched before an earlier one. -/
theorem finishLoad_fifo :
    (∀ (s : LoadManagerState) (c : Nat) (cs : List Nat), s.queue = c :: cs →
      (finishLoad s).2 = [c] ∧ (finishLoad s).1.queue = cs) ∧
    (∀ ops : List LoadOp,
      enqueuedOps initLoadManager ops
        = queueDispatched initLoadManager ops ++ (runOps initLoadManager ops).queue ∧
      queueDispatched initLoadManager ops <+: enqueuedOps initLoadManager ops) := by
  constructor
  · intro s c cs hq
    constructor <;> simp [finishLoad, hq]
  · intro ops
    have h := queue_accounting ops initLoadManager
    simp only [initLoadManager, List.nil_append] at h
    exact ⟨h, ⟨(runOps initLoadManager ops).queue, h.symm⟩⟩

/-- Claim C7 witness: with callbacks 5 and 6 queued behind four active loads,
a completion dispatches exactly callback 5; and on a concrete run the
queue-dispatch order is a prefix of the enqueue order. -/
theorem finishLoad_fifo_witness :
    (({ activeLoads := 4, queue := [5, 6] } : LoadManagerState).queue = 5 :: [6] ∧
      (finishLoad { activeLoads := 4, queue := [5, 6] }).2 = [5] ∧
      (finishLoad { activeLoads := 4, queue := [5, 6] }).1.queue = [6]) ∧
    queueDispatched initLoadManager
        [LoadOp.start 1, LoadOp.start 2, LoadOp.start 3, LoadOp.start 4,
         LoadOp.start 5, LoadOp.start 6, LoadOp.finish]
      <+: enqueuedOps initLoadManager
        [LoadOp.start 1, LoadOp.start 2, LoadOp.start 3, LoadOp.start 4,
         LoadOp.start 5, LoadOp.start 6, LoadOp.finish] :=
  ⟨⟨by decide,
    finishLoad_fifo.1 { activeLoads := 4, queue := [5, 6] } 5 [6] (by decide)⟩,
   (finishLoad_fifo.2
      [LoadOp.start 1, LoadOp.start 2, LoadOp.start 3, LoadOp.start 4,
       LoadOp.start 5, LoadOp.start 6, LoadOp.finish]).2⟩

/-- Counting lemma for the all-failures run of `loadImage`. -/
theorem attemptsFrom_add (k : Nat) : ∀ a : Nat, attemptsFrom (a + k) a = k + 1 := by
  induction k with
  | zero => intro a; rw [attemptsFrom]; simp
  | succ k ih =>
    intro a
    rw [attemptsFrom]
    have ha : a < a + (k + 1) := by omega
    have := ih (a + 1)
    rw [if_pos ha, show a + (k + 1) = a + 1 + k by omega, this]

/-- Claim C3: image loading retries with exponential backoff and a bounded
number of attempts.  A failure at attempt `n < maxRetries` schedules a retry
of the same source after `2 ^ n * 1000` milliseconds plus a jitter in
`[0, 1000)`; the deterministic part of the delay doubles with each attempt; a
failure at attempt `maxRetries` invokes the error callback instead, so after
`maxRetries` failed retries no further retry occurs; with the default
`maxRetries = 3`, an all-failing source is attempted exactly 4 times. -/
theorem loadImage_exponential_backoff :
    (∀ (m n : Nat) (j : ℚ), n < m → 0 ≤ j → j < 1000 →
      onImgError m n j = ErrorStep.retryAfter (2 ^ n * 1000 + j) ∧
      2 ^ n * 1000 ≤ retryDelay n j ∧ retryDelay n j < 2 ^ n * 1000 + 1000) ∧
    (∀ n : Nat, retryDelay (n + 1) 0 = 2 * retryDelay n 0) ∧
    (∀ (m : Nat) (j : ℚ), onImgError m m j = ErrorStep.fail) ∧
    (∀ m : Nat, attemptsFrom m 0 = m + 1) ∧
    defaultMaxRetries = 3 ∧ attemptsFrom defaultMaxRetries 0 = 4 := by
  refine ⟨?_, ?_, ?_, ?_, rfl, ?_⟩
  · intro m n j hnm hj0 hj1
    refine ⟨by simp [onImgError, retryDelay, hnm], ?_, ?_⟩
    · simp only [retryDelay]; linarith
    · simp only [retryDelay]; linarith
  · intro n
    simp only [retryDelay, pow_succ]
    ring
  · intro m j
    simp [onImgError]
  · intro m
    simpa using attemptsFrom_add m 0
  · simpa [defaultMaxRetries] using attemptsFrom_add 3 0

/-- Claim C3 witness: at attempt 1 of 3 with jitter 1/2 ms, the handler
schedules a retry after 2000 + 1/2 ms, within the claimed bounds. -/
theorem loadImage_exponential_backoff_witness :
    (1 : Nat) < 3 ∧ (0 : ℚ) ≤ 1 / 2 ∧ (1 / 2 : ℚ) < 1000 ∧
    (onImgError 3 1 (1 / 2) = ErrorStep.retryAfter (2 ^ 1 * 1000 + 1 / 2) ∧
      2 ^ 1 * 1000 ≤ retryDelay 1 (1 / 2) ∧
      retryDelay 1 (1 / 2) < 2 ^ 1 * 1000 + 1000) :=
  ⟨by norm_num, by norm_num, by norm_num,
    loadImage_exponential_backoff.1 3 1 (1 / 2)
      (by norm_num) (by norm_num) (by norm_num)⟩

/-! ## Database rows (SQL migrations)

`public.posts` (migration 20251001011416, `is_spark` added by migration
20251001014449), `public.profiles.rewards` (DECIMAL(10,2), `src/unnamed/part_000`),
`public.notifications`, `public.stories` (migration 20251002001145).
DECIMAL(10,2) values are exact, modelled as `ℚ`; timestamps are `Int`
seconds. -/

/-- A row of `public.posts`. -/
structure PostRow where
  id : Nat
  user_id : Nat
  content_type : String
  content_url : Option String
  caption : Option String
  is_spark : Bool
  created_at : Int
  updated_at : Int
deriving Repr, DecidableEq

/-- A row of `public.profiles`, restricted to the columns the reward trigger
touches.  `rewards` is `DECIMAL(10,2) NOT NULL DEFAULT 0`. -/
structure ProfileRow where
  user_id : Nat
  rewards : ℚ
deriving Repr, DecidableEq

/-- A row of `public.notifications`, restricted to the columns the embedded
code writes. -/
structure NotificationRow where
  user_id : Nat
  ntype : String
  title : String
  message : String
  post_id : Option Nat
  actor_id : Option Nat
deriving Repr, DecidableEq

/-- The database state the reward trigger reads and writes. -/
structure DB where
  profiles : List ProfileRow
  posts : List PostRow
  notifications : List NotificationRow
deriving Repr, DecidableEq

/-- Points branch `IF NEW.is_spark THEN points := 1.0 ELSE points := 0.5` in
`award_post_points`. -/
def postPoints (p : PostRow) : ℚ := if p.is_spark then 1 else 1 / 2

/-- Variable `reward_type` in `award_post_points`: the text Spark or Post. -/
def rewardTypeText (p : PostRow) : String := if p.is_spark then "Spark" else "Post"

/-- Text rendering of a non-negative DECIMAL(10,2) value, as Postgres
produces when a `numeric(10,2)` is concatenated into a string: two digits
after the decimal point. -/
def decimalText (q : ℚ) : String :=
  let c : Int := q.num * 100 / q.den
  toString (c / 100) ++ "." ++
    (if c % 100 < 10 then "0" ++ toString (c % 100) else toString (c % 100))

/-- The SQL function `public.award_post_points()` (`src/unnamed/part_000`):
determine `points` and `reward_type` from `NEW.is_spark`, add `points` to the
author's `profiles.rewards` (`UPDATE … WHERE user_id = NEW.user_id`), and
insert one reward-typed notification for the author with the points spelled out
in the message and `post_id = NEW.id`. -/
def award_post_points (db : DB) (new : PostRow) : DB :=
  let points := postPoints new
  { db with
    profiles := db.profiles.map (fun pr =>
      if pr.user_id = new.user_id then { pr with rewards := pr.rewards + points }
      else pr),
    notifications := db.notifications ++
      [{ user_id := new.user_id,
         ntype := "reward",
         title := "Reward Earned! 🎉",
         message := "You earned " ++ decimalText points
           ++ " points for creating a " ++ rewardTypeText new ++ "!",
         post_id := some new.id,
         actor_id := none }] }

/-- An INSERT into `public.posts`: the row is stored and the
`AFTER INSERT … FOR EACH ROW` trigger `award_points_on_post` runs
`award_post_points` on it. -/
def insertPost (db : DB) (new : PostRow) : DB :=
  award_post_points { db with posts := db.posts ++ [new] } new

/-- Modelled from the spec: the body of `public.update_updated_at_column` is
not under `src/` (the migrations only reference it in `CREATE TRIGGER`
statements); per the spec's description of the triggers as "timestamp
maintenance", it sets `NEW.updated_at` to `now()` and returns `NEW`. -/
def update_updated_at_column (now : Int) (new : PostRow) : PostRow :=
  { new with updated_at := now }

/-- An UPDATE of a row of `public.posts`: the `BEFORE UPDATE … FOR EACH ROW`
trigger `update_posts_updated_at` (migration 20251001011416, lines 36-40)
passes the NEW row through `public.update_updated_at_column`, and the row it
returns is what gets stored. -/
def updatePostRow (now : Int) (new : PostRow) : PostRow :=
  update_updated_at_column now new

/-! ## Stories (migration 20251002001145) -/

/-- A row of `public.stories`. -/
structure StoryRow where
  id : Nat
  user_id : Nat
  content_url : String
  content_type : String
  caption : Option String
  created_at : Int
  expires_at : Int
deriving Repr, DecidableEq

/-- An INSERT into `public.stories`: columns with a default may be omitted
(`none`). -/
structure StoryInsert where
  id : Nat
  user_id : Nat
  content_url : String
  content_type : String
  caption : Option String
  created_at : Option Int
  expires_at : Option Int
deriving Repr, DecidableEq

/-- The 24-hour SQL interval of the stories schema, in seconds. -/
def interval24Hours : Int := 24 * 60 * 60

/-- Evaluate an INSERT into `public.stories` at transaction time `now`:
`created_at` defaults to `now()` and `expires_at` defaults to
now() plus 24 hours (both defaults see the same now()). -/
def insertStory (now : Int) (req : StoryInsert) : StoryRow :=
  { id := req.id,
    user_id := req.user_id,
    content_url := req.content_url,
    content_type := req.content_type,
    caption := req.caption,
    created_at := req.created_at.getD now,
    expires_at := req.expires_at.getD (now + interval24Hours) }

/-- The single SELECT row-level-security policy on `public.stories`
("Stories are viewable by everyone"): `USING (expires_at > now())`. -/
def storiesSelectPolicy (now : Int) (s : StoryRow) : Bool :=
  s.expires_at > now

/-- Rendering of the `points` value `1.0` as a `numeric(10,2)` string. -/
theorem decimalText_one : decimalText 1 = "1.00" := by rfl

/-- Rendering of the `points` value `0.5` as a `numeric(10,2)` string. -/
theorem decimalText_half : decimalText (2⁻¹ : ℚ) = "0.50" := by
  norm_num [decimalText]
  rfl

/-- Claim C2: the post-creation reward trigger awards points by post type.
Inserting a row into `public.posts` stores the row and, via the
`AFTER INSERT` trigger `award_points_on_post` running `award_post_points`,
adds exactly `1.0` to the author's `profiles.rewards` when `is_spark` is true
and exactly `0.5` when it is false, leaving every other profile row
unchanged (the `+ 0` branch). -/
theorem award_points_on_post_rewards (db : DB) (new : PostRow) (i : Nat)
    (h : i < db.profiles.length) :
    (insertPost db new).posts = db.posts ++ [new] ∧
    (insertPost db new).profiles.length = db.profiles.length ∧
    ((insertPost db new).profiles.get
        ⟨i, by simpa [insertPost, award_post_points] using h⟩).rewards
      = (db.profiles.get ⟨i, h⟩).rewards
        + (if (db.profiles.get ⟨i, h⟩).user_id = new.user_id then
            (if new.is_spark then (1 : ℚ) else 1 / 2) else 0) := by
  refine ⟨by simp [insertPost, award_post_points], by simp [insertPost, award_post_points], ?_⟩
  simp only [insertPost, award_post_points, List.get_eq_getElem, List.getElem_map]
  by_cases huid : (db.profiles[i]).user_id = new.user_id
  · simp [huid, postPoints]
  · simp [huid]

/-- Claim C2 witness: author with 2 points gains exactly 1 more for a
Spark. -/
theorem award_points_on_post_rewards_witness :
    (0 : Nat) <
      (DB.mk [ProfileRow.mk 7 2] [] []).profiles.length ∧
    ((insertPost (DB.mk [ProfileRow.mk 7 2] [] [])
        (PostRow.mk 11 7 "text" none none true 0 0)).profiles.get
          ⟨0, by decide⟩).rewards
      = ((DB.mk [ProfileRow.mk 7 2] [] []).profiles.get ⟨0, by decide⟩).rewards
        + (if ((DB.mk [ProfileRow.mk 7 2] [] []).profiles.get
              ⟨0, by decide⟩).user_id = (PostRow.mk 11 7 "text" none none true 0 0).user_id
            then (if (PostRow.mk 11 7 "text" none none true 0 0).is_spark
              then (1 : ℚ) else 1 / 2) else 0) :=
  ⟨by decide,
    (award_points_on_post_rewards (DB.mk [ProfileRow.mk 7 2] [] [])
      (PostRow.mk 11 7 "text" none none true 0 0) 0 (by decide)).2.2⟩

/-- Claim C4: the reward trigger notifies.  Inserting a row into
`public.posts` appends exactly one row to `public.notifications`, addressed
to the post's author, of type `reward`, carrying the new post's id, and with
a message stating the points awarded (rendered by Postgres as `1.00` for a
Spark, `0.50` for a Post, i.e. the values 1.0 and 0.5). -/
theorem award_points_on_post_notifies (db : DB) (new : PostRow) :
    (insertPost db new).notifications
      = db.notifications ++
        [{ user_id := new.user_id,
           ntype := "reward",
           title := "Reward Earned! 🎉",
           message := "You earned " ++ (if new.is_spark then "1.00" else "0.50")
             ++ " points for creating a "
             ++ (if new.is_spark then "Spark" else "Post") ++ "!",
           post_id := some new.id,
           actor_id := none }] := by
  cases h : new.is_spark <;>
    simp [insertPost, award_post_points, postPoints, rewardTypeText, h,
      decimalText_one, decimalText_half]

/-- Claim C5: timestamp maintenance by trigger.  Every UPDATE of a
`public.posts` row passes through the `BEFORE UPDATE` trigger
`update_posts_updated_at`, whose function sets the stored row's `updated_at`
to the update time while keeping the other columns of the incoming row. -/
theorem update_posts_updated_at_maintains (now : Int) (new : PostRow) :
    (updatePostRow now new).updated_at = now ∧
    (updatePostRow now new).id = new.id ∧
    (updatePostRow now new).user_id = new.user_id ∧
    (updatePostRow now new).caption = new.caption :=
  ⟨rfl, rfl, rfl, rfl⟩

/-- Claim C10 counterexample: an insert at time 100 that supplies an explicit
`created_at = 0` but no `expires_at` gets `expires_at = 100 + 24h`, which is
not `created_at + 24h` — the `expires_at` default is tied to `now()`, not to
the row's `created_at`. -/
theorem stories_expiry_counterexample :
    (insertStory 100
        (StoryInsert.mk 1 1 "u" "image" none (some 0) none)).expires_at
      ≠ (insertStory 100
        (StoryInsert.mk 1 1 "u" "image" none (some 0) none)).created_at
          + interval24Hours := by
  decide

/-- Claim C10, amended: every row inserted into `public.stories` without an
explicit `expires_at` gets `expires_at` = insertion time + 24 hours, which
equals `created_at` + 24 hours whenever `created_at` is likewise left to its
default (as in every insert this repository performs); and the table's only
SELECT row-level-security policy permits reading a story iff its `expires_at`
is strictly later than the current time. -/
theorem stories_expiry_amended :
    (∀ (now : Int) (req : StoryInsert), req.expires_at = none →
      (insertStory now req).expires_at = now + interval24Hours ∧
      (req.created_at = none →
        (insertStory now req).expires_at
          = (insertStory now req).created_at + interval24Hours)) ∧
    (∀ (now : Int) (s : StoryRow),
      storiesSelectPolicy now s = true ↔ s.expires_at > now) := by
  constructor
  · intro now req hexp
    refine ⟨by simp [insertStory, hexp], ?_⟩
    intro hcr
    simp [insertStory, hexp, hcr]
  · intro now s
    simp [storiesSelectPolicy]

/-- Claim C10 witness: a fully-defaulted insert at time 1000 expires at
`created_at + 24h` = 87400, and the SELECT policy admits it at time 1000. -/
theorem stories_expiry_amended_witness :
    ((StoryInsert.mk 1 1 "u" "image" none none none).expires_at = none ∧
      (insertStory 1000 (StoryInsert.mk 1 1 "u" "image" none none none)).expires_at
        = 1000 + interval24Hours ∧
      ((StoryInsert.mk 1 1 "u" "image" none none none).created_at = none →
        (insertStory 1000 (StoryInsert.mk 1 1 "u" "image" none none none)).expires_at
          = (insertStory 1000 (StoryInsert.mk 1 1 "u" "image" none none none)).created_at
            + interval24Hours)) ∧
    (storiesSelectPolicy 1000
        (StoryRow.mk 1 1 "u" "image" none 1000 87400) = true ↔
      (StoryRow.mk 1 1 "u" "image" none 1000 87400).expires_at > 1000) :=
  ⟨⟨rfl,
    (stories_expiry_amended.1 1000
      (StoryInsert.mk 1 1 "u" "image" none none none) rfl).1,
    fun _ => (stories_expiry_amended.1 1000
      (StoryInsert.mk 1 1 "u" "image" none none none) rfl).2 rfl⟩,
   stories_expiry_amended.2 1000 (StoryRow.mk 1 1 "u" "image" none 1000 87400)⟩

/-! ## FeedCard handlers (FeedCard.tsx)

Each handler is a pure function of a context record carrying the post, the
acting user (from `supabase.auth.getUser()`) and the outcome of each backend
call it makes: `Except.ok` for a resolved call, `Except.error` for a rejected
one (network failure, or a returned `error` field the handler explicitly
throws).  The output records the toasts shown, the exception propagated out
of the handler (always `none`: every handler ends in `catch`), and the
notification rows successfully inserted. -/

/-- The post fields the handlers read. -/
structure PostInfo where
  id : Nat
  authorId : Nat
deriving Repr, DecidableEq

inductive ToastVariant where
  | default
  | destructive
deriving Repr, DecidableEq

structure Toast where
  title : String
  description : String
  variant : ToastVariant
deriving Repr, DecidableEq

/-- A toast call carrying the destructive variant. -/
def destructiveToast (title description : String) : Toast :=
  { title := title, description := description, variant := ToastVariant.destructive }

/-- A toast call with the default variant. -/
def defaultToast (title description : String) : Toast :=
  { title := title, description := description, variant := ToastVariant.default }

/-- The "Not authenticated" toast shown when `getUser()` yields no user. -/
def notAuthToast (description : String) : Toast :=
  destructiveToast "Not authenticated" description

/-- What a handler run produces. -/
structure HandlerOut where
  toasts : List Toast
  thrown : Option String
  notifications : List NotificationRow
deriving Repr, DecidableEq

/-- Fallback naming `profile?.display_name || Someone` (null profile or empty name are both
falsy). -/
def displayNameOr (name : Option String) : String :=
  match name with
  | none => "Someone"
  | some s => if s.isEmpty then "Someone" else s

/-- Context of `handleLike`. -/
structure LikeCtx where
  user : Option Nat
  isLiked : Bool
  post : PostInfo
  deleteLike : Except String Unit
  insertLike : Except String Unit
  profileFetch : Except String (Option String)
  insertNotif : Except String Unit
deriving Repr

/-- The notification row `handleLike` inserts for the post's author. -/
def likeNotificationRow (uid : Nat) (post : PostInfo) (name : Option String) :
    NotificationRow :=
  { user_id := post.authorId,
    ntype := "like",
    title := "New Like",
    message := displayNameOr name ++ " liked your post",
    post_id := some post.id,
    actor_id := some uid }

/-- The `try` block of `handleLike`: unlike when `isLiked`, otherwise insert
the like and, when the actor is not the author, fetch the actor's display
name and insert a like notification for the author. -/
def handleLikeTry (ctx : LikeCtx) (uid : Nat) : Except String (List NotificationRow) :=
  if ctx.isLiked then do
    ctx.deleteLike
    pure []
  else do
    ctx.insertLike
    if uid ≠ ctx.post.authorId then do
      let name ← ctx.profileFetch
      ctx.insertNotif
      pure [likeNotificationRow uid ctx.post name]
    else
      pure []

/-- Handler `handleLike` (FeedCard.tsx lines 224-277). -/
def handleLike (ctx : LikeCtx) : HandlerOut :=
  match ctx.user with
  | none =>
      { toasts := [notAuthToast "Please log in to like posts"],
        thrown := none, notifications := [] }
  | some uid =>
      match handleLikeTry ctx uid with
      | Except.ok notifs =>
          { toasts := [], thrown := none, notifications := notifs }
      | Except.error _ =>
          { toasts := [destructiveToast "Error" "Failed to update like"],
            thrown := none, notifications := [] }

/-- JS `String.prototype.trim()`: strip leading and trailing whitespace. -/
def trimString (s : String) : String :=
  String.mk (((s.data.dropWhile Char.isWhitespace).reverse.dropWhile
    Char.isWhitespace).reverse)

/-- Context of `handleAddComment`. -/
structure CommentCtx where
  newComment : String
  user : Option Nat
  post : PostInfo
  insertComment : Except String Unit
  profileFetch : Except String (Option String)
  insertNotif : Except String Unit
deriving Repr

/-- The notification row `handleAddComment` inserts for the post's author. -/
def commentNotificationRow (uid : Nat) (post : PostInfo) (name : Option String) :
    NotificationRow :=
  { user_id := post.authorId,
    ntype := "comment",
    title := "New Comment",
    message := displayNameOr name ++ " commented on your post",
    post_id := some post.id,
    actor_id := some uid }

/-- The `try` block of `handleAddComment`: insert the comment (throwing on a
returned error) and, when the actor is not the author, fetch the display name
and insert a comment notification for the author. -/
def handleAddCommentTry (ctx : CommentCtx) (uid : Nat) :
    Except String (List NotificationRow) := do
  ctx.insertComment
  if uid ≠ ctx.post.authorId then do
    let name ← ctx.profileFetch
    ctx.insertNotif
    pure [commentNotificationRow uid ctx.post name]
  else
    pure []

/-- Handler `handleAddComment` (FeedCard.tsx lines 278-337). -/
def handleAddComment (ctx : CommentCtx) : HandlerOut :=
  if (trimString ctx.newComment).isEmpty then
    { toasts := [], thrown := none, notifications := [] }
  else
    match ctx.user with
    | none =>
        { toasts := [notAuthToast "Please log in to comment"],
          thrown := none, notifications := [] }
    | some uid =>
        match handleAddCommentTry ctx uid with
        | Except.ok notifs =>
            { toasts := [defaultToast "Comment added" "Your comment has been posted"],
              thrown := none, notifications := notifs }
        | Except.error _ =>
            { toasts := [destructiveToast "Error" "Failed to add comment"],
              thrown := none, notifications := [] }

/-- Context of `handleDeleteComment`: the single delete call. -/
structure DeleteCommentCtx where
  deleteComment : Except String Unit
deriving Repr

/-- Handler `handleDeleteComment` (FeedCard.tsx lines 339-360). -/
def handleDeleteComment (ctx : DeleteCommentCtx) : HandlerOut :=
  match ctx.deleteComment with
  | Except.ok _ =>
      { toasts := [defaultToast "Comment deleted" "Your comment has been removed"],
        thrown := none, notifications := [] }
  | Except.error _ =>
      { toasts := [destructiveToast "Error" "Failed to delete comment"],
        thrown := none, notifications := [] }

/-- Context of `handleDeletePost`. -/
structure DeletePostCtx where
  contentUrl : Option String
  storageRemove : Except String Unit
  deletePost : Except String Unit
deriving Repr

/-- The `try` block of `handleDeletePost`: remove the stored file when the
post has a (truthy) content URL, then delete the post row (throwing on a
returned error). -/
def handleDeletePostTry (ctx : DeletePostCtx) : Except String Unit := do
  match ctx.contentUrl with
  | some url => if url.isEmpty then pure () else ctx.storageRemove
  | none => pure ()
  ctx.deletePost

/-- Handler `handleDeletePost` (FeedCard.tsx lines 395-437). -/
def handleDeletePost (ctx : DeletePostCtx) : HandlerOut :=
  match handleDeletePostTry ctx with
  | Except.ok _ =>
      { toasts := [defaultToast "Post deleted" "Your post has been removed"],
        thrown := none, notifications := [] }
  | Except.error _ =>
      { toasts := [destructiveToast "Error" "Failed to delete post"],
        thrown := none, notifications := [] }

/-- Context of `handleTogglePin`. -/
structure PinCtx where
  user : Option Nat
  isPinned : Bool
  deletePin : Except String Unit
  insertPin : Except String Unit
deriving Repr

/-- The `try` block of `handleTogglePin`: unpin when pinned, else pin. -/
def handleTogglePinTry (ctx : PinCtx) : Except String Unit :=
  if ctx.isPinned then ctx.deletePin else ctx.insertPin

/-- Handler `handleTogglePin` (FeedCard.tsx lines 439-489). -/
def handleTogglePin (ctx : PinCtx) : HandlerOut :=
  match ctx.user with
  | none =>
      { toasts := [notAuthToast "Please log in to pin posts"],
        thrown := none, notifications := [] }
  | some _ =>
      match handleTogglePinTry ctx with
      | Except.ok _ =>
          { toasts := [if ctx.isPinned then
              defaultToast "Post unpinned" "Post removed from your pinned collection"
            else
              defaultToast "Post pinned" "Post added to your pinned collection"],
            thrown := none, notifications := [] }
      | Except.error _ =>
          { toasts := [destructiveToast "Error" "Failed to update pin status"],
            thrown := none, notifications := [] }

/-- Claim C6: provider-call failures are surfaced as toasts and swallowed.
For each of `handleLike`, `handleAddComment`, `handleDeleteComment`,
`handleDeletePost` and `handleTogglePin`, whenever a backend call inside the
handler's `try` block rejects, the handler shows exactly one
destructive-variant toast describing the failure and completes normally
(nothing is rethrown). -/
theorem provider_failures_toasted :
    (∀ (ctx : LikeCtx) (uid : Nat) (e : String), ctx.user = some uid →
      handleLikeTry ctx uid = Except.error e →
      (handleLike ctx).toasts = [destructiveToast "Error" "Failed to update like"] ∧
      (handleLike ctx).toasts.map Toast.variant = [ToastVariant.destructive] ∧
      (handleLike ctx).thrown = none) ∧
    (∀ (ctx : CommentCtx) (uid : Nat) (e : String),
      (trimString ctx.newComment).isEmpty = false → ctx.user = some uid →
      handleAddCommentTry ctx uid = Except.error e →
      (handleAddComment ctx).toasts = [destructiveToast "Error" "Failed to add comment"] ∧
      (handleAddComment ctx).toasts.map Toast.variant = [ToastVariant.destructive] ∧
      (handleAddComment ctx).thrown = none) ∧
    (∀ (ctx : DeleteCommentCtx) (e : String),
      ctx.deleteComment = Except.error e →
      (handleDeleteComment ctx).toasts
          = [destructiveToast "Error" "Failed to delete comment"] ∧
      (handleDeleteComment ctx).toasts.map Toast.variant = [ToastVariant.destructive] ∧
      (handleDeleteComment ctx).thrown = none) ∧
    (∀ (ctx : DeletePostCtx) (e : String),
      handleDeletePostTry ctx = Except.error e →
      (handleDeletePost ctx).toasts = [destructiveToast "Error" "Failed to delete post"] ∧
      (handleDeletePost ctx).toasts.map Toast.variant = [ToastVariant.destructive] ∧
      (handleDeletePost ctx).thrown = none) ∧
    (∀ (ctx : PinCtx) (uid : Nat) (e : String), ctx.user = some uid →
      handleTogglePinTry ctx = Except.error e →
      (handleTogglePin ctx).toasts
          = [destructiveToast "Error" "Failed to update pin status"] ∧
      (handleTogglePin ctx).toasts.map Toast.variant = [ToastVariant.destructive] ∧
      (handleTogglePin ctx).thrown = none) := by
  refine ⟨?_, ?_, ?_, ?_, ?_⟩
  · intro ctx uid e hu ht
    simp [handleLike, hu, ht, destructiveToast]
  · intro ctx uid e hc hu ht
    simp [handleAddComment, hc, hu, ht, destructiveToast]
  · intro ctx e hd
    simp [handleDeleteComment, hd, destructiveToast]
  · intro ctx e ht
    simp [handleDeletePost, ht, destructiveToast]
  · intro ctx uid e hu ht
    simp [handleTogglePin, hu, ht, destructiveToast]

/-- Claim C6 witness: concrete contexts in which one backend call rejects,
for each of the five handlers; each handler swallows the rejection and emits
the destructive toast. -/
theorem provider_failures_toasted_witness :
    ((LikeCtx.mk (some 1) true (PostInfo.mk 10 2) (Except.error "net")
        (Except.ok ()) (Except.ok none) (Except.ok ())).user = some 1 ∧
      handleLikeTry (LikeCtx.mk (some 1) true (PostInfo.mk 10 2) (Except.error "net")
        (Except.ok ()) (Except.ok none) (Except.ok ())) 1 = Except.error "net" ∧
      (handleLike (LikeCtx.mk (some 1) true (PostInfo.mk 10 2) (Except.error "net")
          (Except.ok ()) (Except.ok none) (Except.ok ()))).toasts
        = [destructiveToast "Error" "Failed to update like"] ∧
      (handleLike (LikeCtx.mk (some 1) true (PostInfo.mk 10 2) (Except.error "net")
          (Except.ok ()) (Except.ok none) (Except.ok ()))).thrown = none) ∧
    ((handleAddComment (CommentCtx.mk "hi" (some 1) (PostInfo.mk 10 2)
          (Except.error "net") (Except.ok none) (Except.ok ()))).toasts
        = [destructiveToast "Error" "Failed to add comment"] ∧
      (handleAddComment (CommentCtx.mk "hi" (some 1) (PostInfo.mk 10 2)
          (Except.error "net") (Except.ok none) (Except.ok ()))).thrown = none) ∧
    ((handleDeleteComment (DeleteCommentCtx.mk (Except.error "net"))).toasts
        = [destructiveToast "Error" "Failed to delete comment"] ∧
      (handleDeleteComment (DeleteCommentCtx.mk (Except.error "net"))).thrown = none) ∧
    ((handleDeletePost (DeletePostCtx.mk none (Except.ok ())
          (Except.error "net"))).toasts
        = [destructiveToast "Error" "Failed to delete post"] ∧
      (handleDeletePost (DeletePostCtx.mk none (Except.ok ())
          (Except.error "net"))).thrown = none) ∧
    ((handleTogglePin (PinCtx.mk (some 1) false (Except.ok ())
          (Except.error "net"))).toasts
        = [destructiveToast "Error" "Failed to update pin status"] ∧
      (handleTogglePin (PinCtx.mk (some 1) false (Except.ok ())
          (Except.error "net"))).thrown = none) := by
  have h1 := provider_failures_toasted.1
    (LikeCtx.mk (some 1) true (PostInfo.mk 10 2) (Except.error "net")
      (Except.ok ()) (Except.ok none) (Except.ok ())) 1 "net" rfl rfl
  have h2 := provider_failures_toasted.2.1
    (CommentCtx.mk "hi" (some 1) (PostInfo.mk 10 2)
      (Except.error "net") (Except.ok none) (Except.ok ())) 1 "net" (by decide) rfl rfl
  have h3 := provider_failures_toasted.2.2.1
    (DeleteCommentCtx.mk (Except.error "net")) "net" rfl
  have h4 := provider_failures_toasted.2.2.2.1
    (DeletePostCtx.mk none (Except.ok ()) (Except.error "net")) "net" rfl
  have h5 := provider_failures_toasted.2.2.2.2
    (PinCtx.mk (some 1) false (Except.ok ()) (Except.error "net")) 1 "net" rfl rfl
  exact ⟨⟨rfl, rfl, h1.1, h1.2.2⟩, ⟨h2.1, h2.2.2⟩, ⟨h3.1, h3.2.2⟩,
    ⟨h4.1, h4.2.2⟩, ⟨h5.1, h5.2.2⟩⟩

/-- Claim C8: self-actions create no notification.  When a logged-in user
likes or comments on a post and every backend call resolves, a like or
comment notification row addressed to the post's author is inserted iff
the acting user's id differs from the post's `authorId`; acting on one's own
post inserts no notification. -/
theorem self_action_no_notification :
    (∀ (ctx : LikeCtx) (uid : Nat) (name : Option String),
      ctx.user = some uid → ctx.isLiked = false →
      ctx.insertLike = Except.ok () → ctx.profileFetch = Except.ok name →
      ctx.insertNotif = Except.ok () →
      (handleLike ctx).notifications
          = (if uid ≠ ctx.post.authorId then [likeNotificationRow uid ctx.post name]
             else []) ∧
      ((handleLike ctx).notifications ≠ [] ↔ uid ≠ ctx.post.authorId) ∧
      (likeNotificationRow uid ctx.post name).user_id = ctx.post.authorId ∧
      (likeNotificationRow uid ctx.post name).ntype = "like") ∧
    (∀ (ctx : CommentCtx) (uid : Nat) (name : Option String),
      (trimString ctx.newComment).isEmpty = false →
      ctx.user = some uid →
      ctx.insertComment = Except.ok () → ctx.profileFetch = Except.ok name →
      ctx.insertNotif = Except.ok () →
      (handleAddComment ctx).notifications
          = (if uid ≠ ctx.post.authorId then [commentNotificationRow uid ctx.post name]
             else []) ∧
      ((handleAddComment ctx).notifications ≠ [] ↔ uid ≠ ctx.post.authorId) ∧
      (commentNotificationRow uid ctx.post name).user_id = ctx.post.authorId ∧
      (commentNotificationRow uid ctx.post name).ntype = "comment") := by
  constructor
  · intro ctx uid name hu hlk hins hpf hnot
    by_cases h : uid = ctx.post.authorId
    · simp [handleLike, handleLikeTry, hu, hlk, hins, hpf, hnot, h,
        likeNotificationRow, Bind.bind, Except.bind, Pure.pure, Except.pure]
    · simp [handleLike, handleLikeTry, hu, hlk, hins, hpf, hnot, h,
        likeNotificationRow, Bind.bind, Except.bind, Pure.pure, Except.pure]
  · intro ctx uid name hc hu hins hpf hnot
    by_cases h : uid = ctx.post.authorId
    · simp [handleAddComment, handleAddCommentTry, hc, hu, hins, hpf, hnot, h,
        commentNotificationRow, Bind.bind, Except.bind, Pure.pure, Except.pure]
    · simp [handleAddComment, handleAddCommentTry, hc, hu, hins, hpf, hnot, h,
        commentNotificationRow, Bind.bind, Except.bind, Pure.pure, Except.pure]

/-- Claim C8 witness: liking another user's post (ids 1 and 2) inserts
exactly the like notification for the author; commenting on one's own post
(id 1) inserts none. -/
theorem self_action_no_notification_witness :
    ((handleLike (LikeCtx.mk (some 1) false (PostInfo.mk 10 2) (Except.ok ())
          (Except.ok ()) (Except.ok (some "Ann")) (Except.ok ()))).notifications
        = (if (1 : Nat) ≠ (PostInfo.mk 10 2).authorId
           then [likeNotificationRow 1 (PostInfo.mk 10 2) (some "Ann")] else []) ∧
      ((handleLike (LikeCtx.mk (some 1) false (PostInfo.mk 10 2) (Except.ok ())
          (Except.ok ()) (Except.ok (some "Ann")) (Except.ok ()))).notifications ≠ []
        ↔ (1 : Nat) ≠ (PostInfo.mk 10 2).authorId)) ∧
    ((handleAddComment (CommentCtx.mk "hi" (some 1) (PostInfo.mk 10 1)
          (Except.ok ()) (Except.ok (some "Ann")) (Except.ok ()))).notifications
        = (if (1 : Nat) ≠ (PostInfo.mk 10 1).authorId
           then [commentNotificationRow 1 (PostInfo.mk 10 1) (some "Ann")] else []) ∧
      ((handleAddComment (CommentCtx.mk "hi" (some 1) (PostInfo.mk 10 1)
          (Except.ok ()) (Except.ok (some "Ann")) (Except.ok ()))).notifications ≠ []
        ↔ (1 : Nat) ≠ (PostInfo.mk 10 1).authorId)) := by
  have h1 := self_action_no_notification.1
    (LikeCtx.mk (some 1) false (PostInfo.mk 10 2) (Except.ok ())
      (Except.ok ()) (Except.ok (some "Ann")) (Except.ok ())) 1 (some "Ann")
    rfl rfl rfl rfl rfl
  have h2 := self_action_no_notification.2
    (CommentCtx.mk "hi" (some 1) (PostInfo.mk 10 1)
      (Except.ok ()) (Except.ok (some "Ann")) (Except.ok ())) 1 (some "Ann")
    (by decide) rfl rfl rfl rfl
  exact ⟨⟨h1.1, h1.2.1⟩, ⟨h2.1, h2.2.1⟩⟩

/-! ## SafeImage fallback sources (verified-badge.tsx, lines 78-172)

String utilities mirror the JS operations used by `getFallbackSources`,
computing over the underlying character lists so that every definition
evaluates by kernel reduction. -/

/-- Substring test, modelling JS `String.prototype.includes`. -/
def containsSubstr (hay needle : String) : Bool :=
  decide (needle.data <:+: hay.data)

/-- JS `String.prototype.split` with a one-character separator. -/
def splitOnChar (sep : Char) (s : String) : List String :=
  (s.data.splitOn sep).map String.mk

/-- Replace the first occurrence of `pat` (non-empty) in the list. -/
def replaceFirstChars (pat rep : List Char) : List Char → List Char
  | [] => []
  | c :: rest =>
      if pat ≠ [] ∧ pat.isPrefixOf (c :: rest) then
        rep ++ List.drop pat.length (c :: rest)
      else
        c :: replaceFirstChars pat rep rest

/-- JS `String.prototype.replace` with a string pattern: replaces only the
first occurrence. -/
def replaceFirst (s pat rep : String) : String :=
  String.mk (replaceFirstChars pat.data rep.data s.data)

/-- Lookup mirroring `URLSearchParams.get`: the value of the first `key=value` pair of the
query string (percent-decoding not modelled; the embedded theorems never
evaluate this branch). -/
def getQueryParam (query key : String) : Option String :=
  ((splitOnChar '&' query).filterMap (fun pair =>
    match splitOnChar '=' pair with
    | [] => none
    | [k] => if k = key then some "" else none
    | k :: vs => if k = key then some (String.intercalate "=" vs) else none)).head?

/-- JS `||` chain over nullable strings (null and the empty string are both
falsy). -/
def firstTruthy (xs : List (Option String)) (dflt : String) : String :=
  match xs with
  | [] => dflt
  | none :: rest => firstTruthy rest dflt
  | some s :: rest => if s.isEmpty then firstTruthy rest dflt else s

/-- Regex match of the source against a question mark followed by a capture:
everything after the first question mark,
when non-empty. -/
def matchAfterQuery (s : String) : Option String :=
  match splitOnChar '?' s with
  | [] => none
  | [_] => none
  | _ :: parts =>
      let rest := String.intercalate "?" parts
      if rest.isEmpty then none else some rest

/-- Hexadecimal digit characters. -/
def hexDigitChar (n : Nat) : Char :=
  "0123456789ABCDEF".data.getD n '0' 

/-- Characters `encodeURIComponent` leaves unescaped. -/
def isURIUnescaped (c : Char) : Bool :=
  c.isAlphanum || c = '-' || c = '_' || c = '.'
    || c = '!' || c = '~' || c = '*'
    || c = Char.ofNat 39 || c = '(' || c = ')'

/-- JS `encodeURIComponent`: percent-encode the UTF-8 bytes of every other
character. -/
def encodeURIComponent (s : String) : String :=
  String.mk (s.data.foldl (fun acc c =>
    if isURIUnescaped c then acc ++ [c]
    else acc ++ ((String.mk [c]).toUTF8.toList.foldl (fun a b =>
      a ++ ['%', hexDigitChar (b.toNat / 16), hexDigitChar (b.toNat % 16)])
      [])) [])

/-- Constant `FALLBACK_AVATAR`. -/
def FALLBACK_AVATAR : String := "/assets/img/avatar-fallback.png"

/-- Constant `FALLBACK_IMAGE`: the local placeholder. -/
def FALLBACK_IMAGE : String := "/assets/img/fallback-400x300.png"

/-- Avatar fallback list `getAvatarFallbacks(username)`. -/
def getAvatarFallbacks (username : String) : List String :=
  ["https://api.dicebear.com/7.x/avataaars/svg?seed=" ++ encodeURIComponent username,
   "https://i.pravatar.cc/150?u=" ++ encodeURIComponent username,
   FALLBACK_AVATAR]

/-- Brand logo fallback list `getBrandLogoFallbacks(domain)`. -/
def getBrandLogoFallbacks (domain : String) : List String :=
  ["https://logo.clearbit.com/" ++ domain,
   "/assets/logos/local-" ++ replaceFirst (replaceFirst domain ".com" "") "." "-"
     ++ ".png",
   "/assets/logos/default.png"]

/-- Content image fallback list `getContentImageFallbacks(seed, topic?)`. -/
def getContentImageFallbacks (seed : Nat) (topic : Option String) : List String :=
  (match topic with
   | some t => ["https://source.unsplash.com/800x600/?" ++ encodeURIComponent t]
   | none => []) ++
  ["https://picsum.photos/800/600?random=" ++ toString seed, FALLBACK_IMAGE]

/-- The body of `getFallbackSources` past the `fallback` prop check: the
`src`-pattern chain.  `randomSeed` stands for the `Math.floor(Math.random() *
1000)` draw of the content-image branch. -/
def fallbackChain (randomSeed : Nat) (originalSrc : String) : List String :=
  if containsSubstr originalSrc "supabase.co/storage" then
    [originalSrc]
  else if containsSubstr originalSrc "logo.clearbit.com" then
    getBrandLogoFallbacks ((splitOnChar '/' originalSrc).getLastD "")
  else if containsSubstr originalSrc "dicebear.com"
      || containsSubstr originalSrc "pravatar.cc" then
    let query := ((splitOnChar '?' originalSrc).drop 1).headD ""
    getAvatarFallbacks
      (firstTruthy [getQueryParam query "seed", getQueryParam query "u"] "default")
  else if containsSubstr originalSrc "unsplash.com"
      || containsSubstr originalSrc "picsum.photos" then
    getContentImageFallbacks randomSeed
      (if containsSubstr originalSrc "unsplash.com" then matchAfterQuery originalSrc
       else none)
  else
    [originalSrc, FALLBACK_IMAGE]

/-- Function `getFallbackSources(originalSrc)` with the `fallback` prop in scope:
`if (fallback) return [originalSrc, fallback]` (an empty string is falsy),
else the pattern chain. -/
def getFallbackSources (fallback : Option String) (randomSeed : Nat)
    (originalSrc : String) : List String :=
  match fallback with
  | some f => if f.isEmpty then fallbackChain randomSeed originalSrc
              else [originalSrc, f]
  | none => fallbackChain randomSeed originalSrc

/-- Claim C9: Supabase storage URLs bypass the fallback chain.  With no
`fallback` prop, a `src` containing `supabase.co/storage` yields exactly
`[src]` — no alternative provider and no local placeholder; and a `src`
matching none of the provider patterns yields `[src, FALLBACK_IMAGE]`, which
ends in the local placeholder `/assets/img/fallback-400x300.png`. -/
theorem getFallbackSources_supabase_direct (src : String) (seed : Nat) :
    (containsSubstr src "supabase.co/storage" = true →
      getFallbackSources none seed src = [src]) ∧
    (containsSubstr src "supabase.co/storage" = false →
      containsSubstr src "logo.clearbit.com" = false →
      containsSubstr src "dicebear.com" = false →
      containsSubstr src "pravatar.cc" = false →
      containsSubstr src "unsplash.com" = false →
      containsSubstr src "picsum.photos" = false →
      getFallbackSources none seed src = [src, FALLBACK_IMAGE] ∧
      FALLBACK_IMAGE = "/assets/img/fallback-400x300.png") := by
  constructor
  · intro h
    simp [getFallbackSources, fallbackChain, h]
  · intro h1 h2 h3 h4 h5 h6
    exact ⟨by simp [getFallbackSources, fallbackChain, h1, h2, h3, h4, h5, h6], rfl⟩

/-- Claim C9 witness: a user-uploaded storage URL maps to itself alone, and a
plain external URL maps to itself followed by the local placeholder. -/
theorem getFallbackSources_supabase_direct_witness :
    (containsSubstr "https://abc.supabase.co/storage/v1/object/posts/u/p.png"
        "supabase.co/storage" = true ∧
      getFallbackSources none 0
          "https://abc.supabase.co/storage/v1/object/posts/u/p.png"
        = ["https://abc.supabase.co/storage/v1/object/posts/u/p.png"]) ∧
    (containsSubstr "https://example.org/pic.png" "supabase.co/storage" = false ∧
      getFallbackSources none 0 "https://example.org/pic.png"
        = ["https://example.org/pic.png", FALLBACK_IMAGE]) :=
  ⟨⟨by decide,
    (getFallbackSources_supabase_direct
      "https://abc.supabase.co/storage/v1/object/posts/u/p.png" 0).1 (by decide)⟩,
   ⟨by decide,
    ((getFallbackSources_supabase_direct "https://example.org/pic.png" 0).2
      (by decide) (by decide) (by decide) (by decide) (by decide) (by decide)).1⟩⟩

end ChillZ
